import Mathlib

/-!
Shallow embedding of the batch invoice processor
(`process_invoice_new.py` / `streamlit_runner.py`).

External effects (the Gemini call, PIL image opening, S3 puts, wall-clock
timestamps) are abstracted as oracle parameters: each definition below is the
pure data-flow of the corresponding Python function, with the outcome of every
external call supplied as an argument.
-/

namespace Invoices

/-- One element of the `invoice_files` list passed to `process_batch`:
the Python tuple `(file_bytes, file_type, file_name)`.  The raw bytes are
kept opaque (they only flow into the image-open / inference oracles). -/
structure InputFile where
  file_bytes : String
  file_type : String
  file_name : String
deriving DecidableEq

/-- The result dict built by `_process_single_invoice` / `_process_and_upload`:
every key that any code path may set is a field, absent keys are `none`. -/
structure ItemResult where
  success : Bool
  file_name : String
  markdown : Option String := none
  error : Option String := none
  timestamp : String := ""
  processing_time_seconds : Option Nat := none
  s3_key : Option String := none
  s3_bucket : Option String := none
  s3_error : Option String := none
deriving DecidableEq

/-- Outcome of the `self.model.generate_content` call inside
`asyncio.wait_for(..., timeout=120)`:  a normal response text, expiry of the
120-second bound (`asyncio.TimeoutError`), or any other raised error. -/
inductive RemoteOutcome
  | ok (text : String)
  | timeout
  | error (msg : String)
deriving DecidableEq

/-- Python `str.startswith`, on the underlying character lists. -/
def pyStartsWith (s pre : List Char) : Bool :=
  match s, pre with
  | _, [] => true
  | [], _ :: _ => false
  | a :: as, b :: bs => a = b && pyStartsWith as bs

/-- ASCII whitespace as stripped by Python `str.strip()`. -/
def isPyWs (c : Char) : Bool :=
  c = Char.ofNat 32 || c = Char.ofNat 9 || c = Char.ofNat 10
    || c = Char.ofNat 13 || c = Char.ofNat 11 || c = Char.ofNat 12

/-- Python `str.strip()` (ASCII whitespace). -/
def pyStrip (s : String) : String :=
  ⟨((s.data.dropWhile isPyWs).reverse.dropWhile isPyWs).reverse⟩

/-- `file_type.startswith('image/')`, the eligibility test of `process_batch`. -/
def isImageType (f : InputFile) : Bool :=
  pyStartsWith f.file_type.data "image/".data

/-- `_process_single_invoice(image_data, file_type, file_name)`.
`openOutcome` is the outcome of `Image.open(BytesIO(image_data))`,
`remote` the outcome of the Gemini call, `ts` the opaque
`datetime.datetime.now().isoformat()` completion stamp and `ptime` the
measured processing time.  The trailing `except Exception` of the Python
function is unreachable here because every modelled path returns normally. -/
def process_single_invoice (openOutcome : Except String Unit)
    (remote : RemoteOutcome) (file_name ts : String) (ptime : Nat) : ItemResult :=
  match openOutcome with
  | .error e =>
      { success := false, file_name := file_name,
        error := some ("Image opening error: " ++ e), timestamp := ts }
  | .ok _ =>
      match remote with
      | .ok text =>
          { success := true, file_name := file_name,
            markdown := some (pyStrip text), timestamp := ts,
            processing_time_seconds := some ptime }
      | .timeout =>
          { success := false, file_name := file_name,
            error := some "Gemini API timeout after 120 seconds", timestamp := ts }
      | .error e =>
          { success := false, file_name := file_name,
            error := some ("Gemini API error: " ++ e), timestamp := ts }

/-- CPython `os.path.rfind`-style last index of a character in a list. -/
def lastIndexOf (c : Char) : List Char → Option Nat
  | [] => none
  | a :: rest =>
      match lastIndexOf c rest with
      | some i => some (i + 1)
      | none => if a = c then some 0 else none

/-- `os.path.splitext(p)` (posix): split at the last dot, provided it lies
after the last path separator and the base name is not made of dots only. -/
def splitext (p : String) : String × String :=
  let l := p.data
  let fileStart : Nat :=
    match lastIndexOf (Char.ofNat 47) l with
    | some s => s + 1
    | none => 0
  match lastIndexOf (Char.ofNat 46) l with
  | none => (p, "")
  | some dotIdx =>
      if fileStart ≤ dotIdx
          ∧ ((l.drop fileStart).take (dotIdx - fileStart)).any
              (fun c => c ≠ Char.ofNat 46) then
        (⟨l.take dotIdx⟩, ⟨l.drop dotIdx⟩)
      else
        (p, "")

/-- `_upload_to_s3(result, batch_id, s3_folder)`.
`putOutcome` is the outcome of the single `s3.put_object` the call performs;
`tsShort` is the opaque `%H%M%S` stamp appended for uniqueness.  On a put
failure the inner `raise` lands in the outer `except`, which annotates the
result with `s3_error` and returns it unchanged otherwise. -/
def upload_to_s3 (putOutcome : Except String Unit)
    (bucket s3_folder tsShort : String) (result : ItemResult) : ItemResult :=
  let file_base := (splitext result.file_name).1
  let s3_key :=
    if result.success then
      s3_folder ++ file_base ++ "_" ++ tsShort ++ ".md"
    else
      s3_folder ++ "errors/" ++ file_base ++ "_" ++ tsShort ++ ".error.txt"
  match putOutcome with
  | .ok _ => { result with s3_key := some s3_key, s3_bucket := some bucket }
  | .error e => { result with s3_error := some e }

/-- What one dispatched `_process_and_upload` task delivers to
`asyncio.gather(..., return_exceptions=True)`: either a normal result dict,
or an exception object (a fault that escaped the task, e.g. cancellation). -/
inductive TaskOutcome
  | normal (r : ItemResult)
  | fault (msg : String)

/-- The synthetic failure record `process_batch` builds for a task that came
back from `gather` as an exception (lines 133-139 of the source). -/
def faultRecord (name msg now : String) : ItemResult :=
  { success := false, file_name := name,
    error := some ("Unhandled exception: " ++ msg), timestamp := now }

/-- Conversion of the i-th entry of `results` into an entry of
`processed_results`: an exception is replaced by a synthetic failure record
whose file name is `invoice_files[i][2]` — `i` being the index into the
task list, applied to the full submitted list. -/
def resolveOutcome (invoice_files : List InputFile) (now : String)
    (i : Nat) : TaskOutcome → ItemResult
  | .normal r => r
  | .fault msg =>
      faultRecord
        (match invoice_files.get? i with
         | some f => f.file_name
         | none => "unknown_file_" ++ toString i)
        msg now

/-- One element of the summary dict's `"files"` list. -/
structure FileEntry where
  file_name : String
  success : Bool
  s3_key : Option String
  error : Option String
deriving DecidableEq

/-- The summary dict `process_batch` builds and returns. -/
structure BatchSummary where
  batch_id : String
  timestamp : String
  total_files : Nat
  total_processed : Nat
  successful : Nat
  failed : Nat
  s3_folder : String
  files : List FileEntry
deriving DecidableEq

/-- The per-result entry of the summary's `"files"` list. -/
def summarize (r : ItemResult) : FileEntry :=
  { file_name := r.file_name, success := r.success, s3_key := r.s3_key,
    error := if r.success then none else r.error }

/-- `process_batch(invoice_files)`.  `outcomes i f` is what the i-th
dispatched task (for eligible file `f`) delivers to `gather`;
`batch_id`, `timestamp`, `s3_folder`, `now` are the opaque identifiers and
stamps generated during the run.  Non-image files are skipped before
dispatch; exceptions returned by `gather` are converted by
`resolveOutcome`; the statistics and the summary dict follow. -/
def process_batch (outcomes : Nat → InputFile → TaskOutcome)
    (batch_id timestamp s3_folder now : String)
    (invoice_files : List InputFile) : BatchSummary :=
  let taskFiles := invoice_files.filter isImageType
  let results := taskFiles.enum.map (fun x => outcomes x.1 x.2)
  let processed_results :=
    results.enum.map (fun x => resolveOutcome invoice_files now x.1 x.2)
  let successful := (processed_results.filter (fun r => r.success)).length
  let failed := processed_results.length - successful
  { batch_id := batch_id, timestamp := timestamp,
    total_files := invoice_files.length,
    total_processed := processed_results.length,
    successful := successful, failed := failed,
    s3_folder := s3_folder,
    files := processed_results.map summarize }

/-- C1: for every batch, the summary returned by `process_batch` satisfies
`successful + failed = total_processed` and `total_processed ≤ total_files`. -/
theorem batch_summary_counts (outcomes : Nat → InputFile → TaskOutcome)
    (batch_id timestamp s3_folder now : String)
    (invoice_files : List InputFile) :
    let s := process_batch outcomes batch_id timestamp s3_folder now invoice_files
    s.successful + s.failed = s.total_processed
      ∧ s.total_processed ≤ s.total_files := by
  simp only [process_batch]
  constructor
  · have h := List.length_filter_le (fun r : ItemResult => r.success)
      ((((invoice_files.filter isImageType).enum.map
        (fun x => outcomes x.1 x.2)).enum.map
          (fun x => resolveOutcome invoice_files now x.1 x.2)))
    omega
  · simp only [List.length_map, List.enum_length]
    exact List.length_filter_le _ _

/-- The tail of `process_batch`: the summary is uploaded inside a
`try/except` whose handler only logs, so the function returns the summary
whatever the put's outcome. -/
def upload_summary (putOutcome : Except String Unit)
    (summary : BatchSummary) : BatchSummary :=
  match putOutcome with
  | .ok _ => summary
  | .error _ => summary

/-- `process_batch` including the final summary upload step. -/
def process_batch_full (outcomes : Nat → InputFile → TaskOutcome)
    (batch_id timestamp s3_folder now : String)
    (summaryPut : Except String Unit)
    (invoice_files : List InputFile) : BatchSummary :=
  upload_summary summaryPut
    (process_batch outcomes batch_id timestamp s3_folder now invoice_files)

/-- C2 (failing input): a batch of a skipped text file followed by one image
whose task faults.  `process_batch` completes and converts the fault into a
synthetic failed record, but that record carries the SKIPPED file's name
`notes.txt` (from `invoice_files[i][2]` with `i` a task index), not the
faulted image's name `invoice.png`. -/
theorem fault_record_wrong_name :
    let files : List InputFile :=
      [⟨"b1", "text/plain", "notes.txt"⟩, ⟨"b2", "image/png", "invoice.png"⟩]
    let s := process_batch (fun _ _ => TaskOutcome.fault "boom")
      "bid" "ts" "folder/" "now" files
    s.total_files = 2 ∧ s.total_processed = 1 ∧ s.failed = 1
      ∧ s.files = [⟨"notes.txt", false, none, some "Unhandled exception: boom"⟩]
      ∧ (∀ e ∈ s.files, e.file_name ≠ "invoice.png") := by
  decide

/-- C4 (failing input): with a skipped PDF before a faulting image task, the
skipped file's name `skip.pdf` appears in the summary's item list (as the
name of the synthetic fault record), although counting is as specified. -/
theorem skipped_name_in_files_list :
    let files : List InputFile :=
      [⟨"a", "application/pdf", "skip.pdf"⟩, ⟨"b", "image/jpeg", "img.jpg"⟩]
    let s := process_batch (fun _ _ => TaskOutcome.fault "crash")
      "bid" "ts" "folder/" "now" files
    s.total_files = 2 ∧ s.total_processed = 1
      ∧ s.files.map FileEntry.file_name = ["skip.pdf"] := by
  decide

/-- C3 (counterexample): a remote response whose trimmed text is empty gives
`success = true` with `markdown = some ""` and no error, so the claimed
three-way equivalence with a NON-EMPTY markdown fails. -/
theorem empty_markdown_success :
    let r := process_single_invoice (Except.ok ()) (RemoteOutcome.ok "  ")
      "inv.png" "t" 0
    r.success = true ∧ r.markdown = some "" ∧ r.error = none
      ∧ ¬ (r.success = true ↔ (r.markdown ≠ none ∧ r.markdown ≠ some "")) := by
  decide

/-- C3 (amended): for every outcome of the single-item pipeline,
`success = true` iff `markdown` is present (possibly empty) iff `error`
is absent. -/
theorem single_invoice_result_invariant (openOutcome : Except String Unit)
    (remote : RemoteOutcome) (file_name ts : String) (ptime : Nat) :
    let r := process_single_invoice openOutcome remote file_name ts ptime
    (r.success = true ↔ r.markdown ≠ none)
      ∧ (r.success = true ↔ r.error = none) := by
  cases openOutcome <;> cases remote <;>
    simp [process_single_invoice]

/-- The deterministic key the sink actually builds: prefix, base name,
an underscore-separated per-item `%H%M%S` stamp, then `.md` for successes
and `errors/…​.error.txt` for failures. -/
def sink_item_key (prfx base tsShort : String) (success : Bool) : String :=
  if success then prfx ++ base ++ "_" ++ tsShort ++ ".md"
  else prfx ++ "errors/" ++ base ++ "_" ++ tsShort ++ ".error.txt"

/-- C5 (counterexample): for a successful result for `a.png` with prefix
`p/` and stamp `123456`, the stored key is `p/a_123456.md`, not the claimed
`p/a.md`. -/
theorem item_key_not_spec_shape :
    (upload_to_s3 (Except.ok ()) "bkt" "p/" "123456"
      { success := true, file_name := "a.png", markdown := some "m" }).s3_key
        = some "p/a_123456.md"
    ∧ (upload_to_s3 (Except.ok ()) "bkt" "p/" "123456"
      { success := true, file_name := "a.png", markdown := some "m" }).s3_key
        ≠ some "p/a.md" := by
  constructor <;> decide

/-- C5 (amended): on a successful put, the stored key is
`{prefix}{base}_{ts}.md` for successes and
`{prefix}errors/{base}_{ts}.error.txt` for failures, with `base` the
input file name stripped of its extension. -/
theorem item_key_shape (bucket s3_folder tsShort : String) (r : ItemResult) :
    (upload_to_s3 (Except.ok ()) bucket s3_folder tsShort r).s3_key =
      some (sink_item_key s3_folder (splitext r.file_name).1 tsShort r.success) := by
  by_cases h : r.success <;>
    simp [upload_to_s3, sink_item_key, h]

/-- C6 (counterexample): on a remote timeout the error message is the string
`Gemini API timeout after 120 seconds`, not the literal `timeout`. -/
theorem timeout_message_not_literal :
    (process_single_invoice (Except.ok ()) RemoteOutcome.timeout
      "a.png" "t" 0).error ≠ some "timeout" := by
  decide

/-- C6 (amended): for every item whose remote call times out (under the
120-second `asyncio.wait_for` bound), the pipeline returns a failed result
whose error message is the timeout-indicating string
`Gemini API timeout after 120 seconds`. -/
theorem timeout_yields_failed_result (file_name ts : String) (ptime : Nat) :
    (process_single_invoice (Except.ok ()) RemoteOutcome.timeout
        file_name ts ptime).success = false
      ∧ (process_single_invoice (Except.ok ()) RemoteOutcome.timeout
          file_name ts ptime).error =
        some "Gemini API timeout after 120 seconds"
      ∧ (process_single_invoice (Except.ok ()) RemoteOutcome.timeout
          file_name ts ptime).markdown = none := by
  simp [process_single_invoice]

/-- C7: when the storage put fails, `_upload_to_s3` returns the result with
only the auxiliary `s3_error` annotation added — success flag and every
other field unchanged — and no exception escapes (the function is total). -/
theorem upload_failure_only_annotates (e bucket s3_folder tsShort : String)
    (r : ItemResult) :
    let r2 := upload_to_s3 (Except.error e) bucket s3_folder tsShort r
    r2.success = r.success ∧ r2.file_name = r.file_name
      ∧ r2.markdown = r.markdown ∧ r2.error = r.error
      ∧ r2.timestamp = r.timestamp
      ∧ r2.processing_time_seconds = r.processing_time_seconds
      ∧ r2.s3_key = r.s3_key ∧ r2.s3_bucket = r.s3_bucket
      ∧ r2.s3_error = some e := by
  simp [upload_to_s3]

/-- C8: whatever the outcome of the durable summary write, `process_batch`
returns the very summary it built in memory — the failure branch neither
raises nor alters its contents. -/
theorem summary_returned_despite_write_failure
    (outcomes : Nat → InputFile → TaskOutcome)
    (batch_id timestamp s3_folder now : String)
    (summaryPut : Except String Unit)
    (invoice_files : List InputFile) :
    process_batch_full outcomes batch_id timestamp s3_folder now summaryPut
        invoice_files =
      process_batch outcomes batch_id timestamp s3_folder now invoice_files := by
  cases summaryPut <;> rfl

/-! ## Progress reporting (`streamlit_runner.py`)

`ProgressReportingProcessor` writes `(current, total, message)` snapshots to
the progress file: one at the start of `process_batch`, one after each
completed `_process_and_upload` task, and `run_async_non_blocking` writes a
final snapshot once the summary is back.  A run's sequence of snapshots is
modelled as a list, with `order` the names of the dispatched files in
completion order. -/

/-- One `(current, total, message)` snapshot saved by `save_progress`. -/
structure Progress where
  current : Nat
  total : Nat
  message : String
deriving DecidableEq

/-- The snapshot saved after the k-th task completion
(`self.processed_count += 1; save_progress(...)`). -/
def progress_update (k n : Nat) (file_name : String) : Progress :=
  ⟨k, n, "Processing file " ++ toString k ++ "/" ++ toString n ++ ": " ++ file_name⟩

/-- The per-completion snapshots of a run whose dispatched tasks complete in
the order given by `order`. -/
def item_updates (n : Nat) (order : List String) : List Progress :=
  (List.enumFrom 0 order).map (fun x => progress_update (x.1 + 1) n x.2)

/-- All snapshots written during one run of
`run_async_non_blocking(process_invoices_with_progress(invoice_files))`:
the initial save of the overridden `process_batch`, one save per completed
dispatched task, and the final save made with the returned summary's
`total_processed` and `total_files`. -/
def progress_trace (outcomes : Nat → InputFile → TaskOutcome)
    (batch_id timestamp s3_folder now : String)
    (invoice_files : List InputFile) (order : List String) : List Progress :=
  let n := invoice_files.length
  let s := process_batch outcomes batch_id timestamp s3_folder now invoice_files
  ⟨0, n, "Starting processing..."⟩ ::
    (item_updates n order ++
      [⟨s.total_processed, s.total_files, "Processing complete!"⟩])

theorem total_processed_eq (outcomes : Nat → InputFile → TaskOutcome)
    (batch_id timestamp s3_folder now : String)
    (invoice_files : List InputFile) :
    (process_batch outcomes batch_id timestamp s3_folder now
        invoice_files).total_processed =
      (invoice_files.filter isImageType).length := by
  simp [process_batch, List.enum_length]

theorem chain_item_updates (n : Nat) (last : Progress) (k : Nat)
    (order : List String) (h : last.current = k + order.length) :
    List.Chain' (fun p q : Progress => p.current ≤ q.current)
      (((List.enumFrom k order).map
          (fun x => progress_update (x.1 + 1) n x.2)) ++ [last])
    ∧ ∀ p ∈ (((List.enumFrom k order).map
          (fun x => progress_update (x.1 + 1) n x.2)) ++ [last]).head?,
        k ≤ p.current := by
  induction order generalizing k with
  | nil =>
      simp only [List.enumFrom, List.map_nil, List.nil_append, List.head?_cons]
      refine ⟨List.chain'_singleton _, ?_⟩
      intro p hp
      simp only [Option.mem_def, Option.some.injEq] at hp
      subst hp
      omega
  | cons name rest ih =>
      simp only [List.length_cons] at h
      have h' : last.current = (k + 1) + rest.length := by omega
      have hrest := ih (k + 1) h'
      simp only [List.enumFrom, List.map_cons, List.cons_append]
      constructor
      · rw [List.chain'_cons']
        refine ⟨?_, hrest.1⟩
        intro y hy
        have hk := hrest.2 y hy
        simpa [progress_update] using hk
      · intro p hp
        simp only [List.head?_cons, Option.mem_def, Option.some.injEq] at hp
        subst hp
        simp [progress_update]

/-- C9 (counterexample): for a batch consisting of one skipped text file,
the final snapshot is `(0, 1, "Processing complete!")` — its `current` is the
summary's `total_processed`, not `total_count` — so the state after the
batch finishes is not `(total, total, completion message)`. -/
theorem final_progress_below_total :
    let tr := progress_trace (fun _ _ => TaskOutcome.fault "x") "b" "t" "f" "n"
      [⟨"bb", "text/plain", "notes.txt"⟩] []
    tr.head? = some ⟨0, 1, "Starting processing..."⟩
      ∧ tr.getLast? = some ⟨0, 1, "Processing complete!"⟩
      ∧ tr.getLast? ≠ some ⟨1, 1, "Processing complete!"⟩ := by
  decide

/-- C9 (amended): over a run whose dispatched tasks complete in order
`order`, the progress state starts at `(0, total_files, starting message)`,
is updated exactly once per dispatched item completion (trace length
`total_processed + 2`), has a monotonically non-decreasing `current`, and
ends at `(total_processed, total_files, completion message)` — which equals
`(total, total, …)` exactly when no item was skipped. -/
theorem progress_trace_spec (outcomes : Nat → InputFile → TaskOutcome)
    (batch_id timestamp s3_folder now : String)
    (invoice_files : List InputFile) (order : List String)
    (horder : order.length = (invoice_files.filter isImageType).length) :
    let s := process_batch outcomes batch_id timestamp s3_folder now invoice_files
    let tr := progress_trace outcomes batch_id timestamp s3_folder now
      invoice_files order
    tr.head? = some ⟨0, invoice_files.length, "Starting processing..."⟩
      ∧ tr.length = s.total_processed + 2
      ∧ List.Chain' (fun p q => p.current ≤ q.current) tr
      ∧ tr.getLast? =
          some ⟨s.total_processed, s.total_files, "Processing complete!"⟩ := by
  intro s tr
  have htp : s.total_processed = order.length := by
    rw [total_processed_eq, horder]
  refine ⟨rfl, ?_, ?_, ?_⟩
  · simp [tr, progress_trace, item_updates, List.enum_length, htp]
  · show List.Chain' _
      (⟨0, invoice_files.length, "Starting processing..."⟩ ::
        (item_updates invoice_files.length order ++
          [⟨s.total_processed, s.total_files, "Processing complete!"⟩]))
    rw [List.chain'_cons']
    have hc := chain_item_updates invoice_files.length
      ⟨s.total_processed, s.total_files, "Processing complete!"⟩ 0 order
      (by simpa using htp)
    exact ⟨fun y _ => Nat.zero_le _, hc.1⟩
  · show List.getLast? (_ :: (_ ++ [_])) = _
    rw [← List.cons_append, List.getLast?_concat]

/-- Witness for `progress_trace_spec` at a one-image batch completing in one
step. -/
theorem progress_trace_spec_witness :
    (["img.png"].length =
      (([⟨"bb", "image/png", "img.png"⟩] : List InputFile).filter
        isImageType).length)
    ∧ (let s := process_batch (fun _ _ => TaskOutcome.fault "x") "b" "t" "f" "n"
          [⟨"bb", "image/png", "img.png"⟩]
       let tr := progress_trace (fun _ _ => TaskOutcome.fault "x") "b" "t" "f" "n"
          [⟨"bb", "image/png", "img.png"⟩] ["img.png"]
       tr.head? = some ⟨0, 1, "Starting processing..."⟩
         ∧ tr.length = s.total_processed + 2
         ∧ List.Chain' (fun p q => p.current ≤ q.current) tr
         ∧ tr.getLast? =
             some ⟨s.total_processed, s.total_files, "Processing complete!"⟩) :=
  ⟨by decide,
    progress_trace_spec (fun _ _ => TaskOutcome.fault "x") "b" "t" "f" "n"
      [⟨"bb", "image/png", "img.png"⟩] ["img.png"] (by decide)⟩

/-! ## The persisted summary body (`str(summary).encode('utf-8')`)

`process_batch` stores the summary object with
`Body=str(summary).encode('utf-8')` and `ContentType="application/json"`.
Below, `summaryPyStr` is the shallow embedding of CPython's `str()` (= `repr`)
rendering of that exact dict, and `summaryJson` — modelled from the claim's
comparison point — is the `json.dumps` serialization of the same mapping.
Both renderers are faithful for printable-ASCII content (CPython additionally
hex-escapes unprintable characters, which no key of this dict contains). -/

/-- A stored object: key, body and declared content type of one `put_object`. -/
structure PutRecord where
  key : String
  body : String
  contentType : String
deriving DecidableEq

/-- The quote CPython `repr` picks for a string: single quotes, unless the
string contains a single quote and no double quote. -/
def pyQuoteChar (s : String) : Char :=
  if s.data.contains (Char.ofNat 39) && !(s.data.contains (Char.ofNat 34)) then
    Char.ofNat 34
  else Char.ofNat 39

/-- `repr`-escaping of one character under quote `q`. -/
def pyEscChar (q c : Char) : String :=
  if c = Char.ofNat 92 then "\\\\"
  else if c = q then "\\" ++ String.singleton q
  else if c = Char.ofNat 10 then "\\n"
  else if c = Char.ofNat 13 then "\\r"
  else if c = Char.ofNat 9 then "\\t"
  else String.singleton c

/-- CPython `repr` of a string (printable-ASCII fragment). -/
def pyReprStr (s : String) : String :=
  let q := pyQuoteChar s
  String.singleton q ++ String.join (s.data.map (pyEscChar q)) ++ String.singleton q

/-- `repr` of a Python bool. -/
def pyBoolStr (b : Bool) : String :=
  if b then "True" else "False"

/-- `repr` of an optional string (`None` when absent). -/
def pyOptStr : Option String → String
  | none => "None"
  | some s => pyReprStr s

/-- `repr` of one entry of the summary's `files` list. -/
def fileEntryPyStr (e : FileEntry) : String :=
  "\x7b" ++ pyReprStr "file_name" ++ ": " ++ pyReprStr e.file_name
    ++ ", " ++ pyReprStr "success" ++ ": " ++ pyBoolStr e.success
    ++ ", " ++ pyReprStr "s3_key" ++ ": " ++ pyOptStr e.s3_key
    ++ ", " ++ pyReprStr "error" ++ ": " ++ pyOptStr e.error
    ++ "\x7d"

/-- `str(summary)` — CPython's rendering of the summary dict, keys in
insertion order. -/
def summaryPyStr (s : BatchSummary) : String :=
  "\x7b" ++ pyReprStr "batch_id" ++ ": " ++ pyReprStr s.batch_id
    ++ ", " ++ pyReprStr "timestamp" ++ ": " ++ pyReprStr s.timestamp
    ++ ", " ++ pyReprStr "total_files" ++ ": " ++ toString s.total_files
    ++ ", " ++ pyReprStr "total_processed" ++ ": " ++ toString s.total_processed
    ++ ", " ++ pyReprStr "successful" ++ ": " ++ toString s.successful
    ++ ", " ++ pyReprStr "failed" ++ ": " ++ toString s.failed
    ++ ", " ++ pyReprStr "s3_folder" ++ ": " ++ pyReprStr s.s3_folder
    ++ ", " ++ pyReprStr "files" ++ ": "
    ++ "[" ++ String.intercalate ", " (s.files.map fileEntryPyStr) ++ "]"
    ++ "\x7d"

/-- JSON string escaping (printable-ASCII fragment). -/
def jsonEscChar (c : Char) : String :=
  if c = Char.ofNat 92 then "\\\\"
  else if c = Char.ofNat 34 then "\\" ++ String.singleton (Char.ofNat 34)
  else if c = Char.ofNat 10 then "\\n"
  else if c = Char.ofNat 13 then "\\r"
  else if c = Char.ofNat 9 then "\\t"
  else String.singleton c

/-- A JSON string literal. -/
def jsonQuote (s : String) : String :=
  "\"" ++ String.join (s.data.map jsonEscChar) ++ "\""

/-- JSON rendering of a Python bool. -/
def jsonBoolStr (b : Bool) : String :=
  if b then "true" else "false"

/-- JSON rendering of an optional string (`null` when absent). -/
def jsonOptStr : Option String → String
  | none => "null"
  | some s => jsonQuote s

/-- Modelled from the claim's comparison point: `json.dumps` of one entry of
the summary's `files` list (default separators). -/
def fileEntryJson (e : FileEntry) : String :=
  "\x7b" ++ jsonQuote "file_name" ++ ": " ++ jsonQuote e.file_name
    ++ ", " ++ jsonQuote "success" ++ ": " ++ jsonBoolStr e.success
    ++ ", " ++ jsonQuote "s3_key" ++ ": " ++ jsonOptStr e.s3_key
    ++ ", " ++ jsonQuote "error" ++ ": " ++ jsonOptStr e.error
    ++ "\x7d"

/-- Modelled from the claim's comparison point: `json.dumps(summary)` with
default separators, keys in insertion order. -/
def summaryJson (s : BatchSummary) : String :=
  "\x7b" ++ jsonQuote "batch_id" ++ ": " ++ jsonQuote s.batch_id
    ++ ", " ++ jsonQuote "timestamp" ++ ": " ++ jsonQuote s.timestamp
    ++ ", " ++ jsonQuote "total_files" ++ ": " ++ toString s.total_files
    ++ ", " ++ jsonQuote "total_processed" ++ ": " ++ toString s.total_processed
    ++ ", " ++ jsonQuote "successful" ++ ": " ++ toString s.successful
    ++ ", " ++ jsonQuote "failed" ++ ": " ++ toString s.failed
    ++ ", " ++ jsonQuote "s3_folder" ++ ": " ++ jsonQuote s.s3_folder
    ++ ", " ++ jsonQuote "files" ++ ": "
    ++ "[" ++ String.intercalate ", " (s.files.map fileEntryJson) ++ "]"
    ++ "\x7d"

/-- The `put_object` performed for the summary: key `{s3_folder}_summary.json`,
body `str(summary).encode('utf-8')`, content type `application/json`. -/
def summary_put (s3_folder : String) (summary : BatchSummary) : PutRecord :=
  { key := s3_folder ++ "_summary.json",
    body := summaryPyStr summary,
    contentType := "application/json" }

theorem pyReprStr_batch_id : pyReprStr "batch_id" =
    String.singleton (Char.ofNat 39) ++ "batch_id"
      ++ String.singleton (Char.ofNat 39) := by
  decide

theorem jsonQuote_batch_id : jsonQuote "batch_id" = "\"batch_id\"" := by
  decide

theorem data_brace : ("\x7b" : String).data = [Char.ofNat 123] := by
  decide

theorem data_singleton_quote :
    (String.singleton (Char.ofNat 39)).data = [Char.ofNat 39] := by
  decide

/-- The two renderings always differ: `str()` opens the first key with a
single quote, JSON with a double quote (character at index 1). -/
theorem summaryPyStr_ne_summaryJson (s : BatchSummary) :
    summaryPyStr s ≠ summaryJson s := by
  intro h
  have hd := congrArg String.data h
  rw [summaryPyStr, summaryJson, pyReprStr_batch_id, jsonQuote_batch_id] at hd
  simp only [String.data_append, data_brace, data_singleton_quote,
    List.cons_append, List.nil_append, List.singleton_append,
    List.append_assoc, List.cons.injEq] at hd
  exact absurd hd.2.1 (by decide)

/-- C10: the summary object is stored at `{s3_folder}_summary.json` with
content type `application/json`, but its body is Python's `str()` rendering
of the summary dict, which for any (in particular any non-empty) batch is
not the JSON serialization of the returned summary. -/
theorem summary_body_is_str_not_json
    (outcomes : Nat → InputFile → TaskOutcome)
    (batch_id timestamp s3_folder now : String)
    (invoice_files : List InputFile) (_hne : invoice_files ≠ []) :
    let s := process_batch outcomes batch_id timestamp s3_folder now invoice_files
    (summary_put s3_folder s).key = s3_folder ++ "_summary.json"
      ∧ (summary_put s3_folder s).contentType = "application/json"
      ∧ (summary_put s3_folder s).body = summaryPyStr s
      ∧ (summary_put s3_folder s).body ≠ summaryJson s := by
  intro s
  exact ⟨rfl, rfl, rfl, summaryPyStr_ne_summaryJson s⟩

/-- Witness for `summary_body_is_str_not_json` at a concrete one-file batch. -/
theorem summary_body_is_str_not_json_witness :
    (([⟨"bb", "image/png", "img.png"⟩] : List InputFile) ≠ [])
    ∧ (let s := process_batch (fun _ _ => TaskOutcome.fault "x") "b" "t" "f" "n"
          [⟨"bb", "image/png", "img.png"⟩]
       (summary_put "f" s).key = "f" ++ "_summary.json"
         ∧ (summary_put "f" s).contentType = "application/json"
         ∧ (summary_put "f" s).body = summaryPyStr s
         ∧ (summary_put "f" s).body ≠ summaryJson s) :=
  ⟨by decide,
    summary_body_is_str_not_json (fun _ _ => TaskOutcome.fault "x") "b" "t" "f" "n"
      [⟨"bb", "image/png", "img.png"⟩] (by decide)⟩

end Invoices
